import Mathlib

/-
Shallow embedding of the stm-drivers repository:
  src/CAN/Src/can_driver.c        (scheduled-message registry and periodic tick)
  src/Error_Corrutines/Src/error_handler.c (error/heartbeat condition reporter)

Machine integers are modelled as Nat with explicit reduction modulo 2^32
(uint32_t) or 2^16 (uint16_t) where the C code can overflow or truncate.
The scheduled-message array of capacity CAN_MAX_MSG plus its size field is
modelled as a Lean List (the C code never reads cells at index >= size).
Function pointers for payload producers, together with their void* context,
are modelled by a type parameter of producer tags plus an interpretation
function passed to the tick; the error handler instantiates this with its
two concrete producers. A call into Error_Handler() (the fatal
configuration trap, which never returns) is modelled by an Option result:
none means the trap was reached and no state mutation is observable.
-/

/- Constants from src/CAN/Inc/can_driver.h -/
def CAN_MAX_DLC : Nat := 8
def CAN_MAX_MSG : Nat := 32

/- uint32_t wraps modulo 2^32 -/
def UINT32_LIM : Nat := 2 ^ 32

/- CAN identifier space flag: CAN_ID_STD or CAN_ID_EXT -/
inductive CAN_IdType where
  | std
  | ext
deriving DecidableEq

/- CAN_TxHeaderTypeDef (HAL): standard id, extended id, id-space flag,
remote-frame flag, data length code, timestamp flag. -/
structure CAN_TxHeaderTypeDef where
  StdId : Nat
  ExtId : Nat
  IDE : CAN_IdType
  RTR : Nat
  DLC : Nat
  TransmitGlobalTime : Bool
deriving DecidableEq

/- HAL_StatusTypeDef restricted to the two values the driver produces -/
inductive HAL_Status where
  | HAL_OK
  | HAL_ERROR
deriving DecidableEq

/- struct CAN_scheduledMsg.  getData plus its context pointer are modelled
as an optional producer tag of type a, interpreted by the tick function. -/
structure CAN_scheduledMsg (a : Type) where
  header : CAN_TxHeaderTypeDef
  periodMs : Nat
  lastTick : Nat
  getData : Option a
deriving DecidableEq

/- struct CAN_scheduledMsgList: the live prefix list[0..size) as a List;
txMailbox is irrelevant to the modelled behaviour and omitted. -/
structure CAN_scheduledMsgList (a : Type) where
  list : List (CAN_scheduledMsg a)
deriving DecidableEq

/- The duplicate test of CAN_addScheduledMessage, lines 79-80 of
can_driver.c: it branches on the EXISTING entry's IDE only and compares
the corresponding field of the new message's header. -/
def dupMatch {a : Type} (e : CAN_scheduledMsg a) (hdr : CAN_TxHeaderTypeDef) : Bool :=
  (e.header.IDE == CAN_IdType.std && e.header.StdId == hdr.StdId) ||
  (e.header.IDE == CAN_IdType.ext && e.header.ExtId == hdr.ExtId)

/- CAN_addScheduledMessage (can_driver.c lines 62-89).  now is the value
HAL_GetTick() returns during the call.  none models the Error_Handler()
trap for a full registry or a zero period. -/
def CAN_addScheduledMessage {a : Type} (now : Nat) (msg : CAN_scheduledMsg a)
    (buffer : CAN_scheduledMsgList a) :
    Option (HAL_Status × CAN_scheduledMsgList a) :=
  if buffer.list.length ≥ CAN_MAX_MSG - 1 then
    none
  else if msg.periodMs == 0 then
    none
  else
    let msg' := { msg with lastTick := now % UINT32_LIM }
    if buffer.list.any (fun e => dupMatch e msg'.header) then
      some (HAL_Status.HAL_ERROR, buffer)
    else
      some (HAL_Status.HAL_OK, ⟨buffer.list ++ [msg']⟩)

/- The match test of CAN_removeScheduledMessage, lines 98-99: same shape
as dupMatch but against a bare id. -/
def remMatch {a : Type} (e : CAN_scheduledMsg a) (id : Nat) : Bool :=
  (e.header.IDE == CAN_IdType.std && e.header.StdId == id) ||
  (e.header.IDE == CAN_IdType.ext && e.header.ExtId == id)

/- The scan-and-compact loop of CAN_removeScheduledMessage: remove the
first matching entry, shifting the rest left. -/
def removeScan {a : Type} (id : Nat) :
    List (CAN_scheduledMsg a) → Option (List (CAN_scheduledMsg a))
  | [] => none
  | e :: rest =>
    if remMatch e id then some rest
    else (removeScan id rest).map (fun r => e :: r)

/- CAN_removeScheduledMessage (can_driver.c lines 94-112) -/
def CAN_removeScheduledMessage {a : Type} (id : Nat)
    (buffer : CAN_scheduledMsgList a) : HAL_Status × CAN_scheduledMsgList a :=
  match removeScan id buffer.list with
  | some l => (HAL_Status.HAL_OK, ⟨l⟩)
  | none => (HAL_Status.HAL_ERROR, buffer)

/- The due test of CAN_handleScheduled, line 123:
currentTick > msg->lastTick + msg->periodMs in uint32_t arithmetic. -/
def due {a : Type} (now : Nat) (msg : CAN_scheduledMsg a) : Bool :=
  now % UINT32_LIM > (msg.lastTick + msg.periodMs) % UINT32_LIM

/- Lines 125-132: zero-initialize a DLC-byte buffer, then call getData on
it when the pointer is non-null. -/
def producePayload {a : Type} (runProd : a → List Nat → List Nat)
    (msg : CAN_scheduledMsg a) : List Nat :=
  let data0 := List.replicate msg.header.DLC 0
  match msg.getData with
  | some p => runProd p data0
  | none => data0

/- The loop body of CAN_handleScheduled (lines 120-141), returning the
updated live list and the transmissions issued, in order.  tx models
HAL_CAN_AddTxMessage (true = HAL_OK); a failed transmit returns from the
whole function, leaving the remaining entries untouched.  The refreshed
lastTick is the HAL_GetTick() read on line 139, modelled as the same
clock value now. -/
def handleScheduledList {a : Type} (runProd : a → List Nat → List Nat)
    (tx : CAN_TxHeaderTypeDef → List Nat → Bool) (now : Nat) :
    List (CAN_scheduledMsg a) →
    List (CAN_scheduledMsg a) × List (CAN_TxHeaderTypeDef × List Nat)
  | [] => ([], [])
  | msg :: rest =>
    if due now msg then
      let data := producePayload runProd msg
      if tx msg.header data then
        let r := handleScheduledList runProd tx now rest
        ({ msg with lastTick := now % UINT32_LIM } :: r.1, (msg.header, data) :: r.2)
      else
        (msg :: rest, [])
    else
      let r := handleScheduledList runProd tx now rest
      (msg :: r.1, r.2)

/- CAN_handleScheduled (can_driver.c lines 117-142) -/
def CAN_handleScheduled {a : Type} (runProd : a → List Nat → List Nat)
    (tx : CAN_TxHeaderTypeDef → List Nat → Bool) (now : Nat)
    (buffer : CAN_scheduledMsgList a) :
    CAN_scheduledMsgList a × List (CAN_TxHeaderTypeDef × List Nat) :=
  let r := handleScheduledList runProd tx now buffer.list
  (⟨r.1⟩, r.2)

/- CAN_process (can_driver.c lines 147-153): null checks do not arise in
the model, so it is CAN_handleScheduled. -/
def CAN_process {a : Type} (runProd : a → List Nat → List Nat)
    (tx : CAN_TxHeaderTypeDef → List Nat → Bool) (now : Nat)
    (buffer : CAN_scheduledMsgList a) :
    CAN_scheduledMsgList a × List (CAN_TxHeaderTypeDef × List Nat) :=
  CAN_handleScheduled runProd tx now buffer

/- identifier equality within one id space: both entries standard with
equal StdId, or both extended with equal ExtId -/
def sameIdSameSpace (x y : CAN_TxHeaderTypeDef) : Bool :=
  x.IDE == y.IDE &&
    (match x.IDE with
     | CAN_IdType.std => x.StdId == y.StdId
     | CAN_IdType.ext => x.ExtId == y.ExtId)

/- well-formedness of the registry: no two entries share an identifier in
the same id space -/
def registryUnique {a : Type} (reg : CAN_scheduledMsgList a) : Prop :=
  reg.list.Pairwise (fun x y => sameIdSameSpace x.header y.header = false)

/- the registry state after one add call; on the fatal trap (none) no
mutation has happened when Error_Handler() is entered -/
def applyAdd {a : Type} (p : Nat × CAN_scheduledMsg a)
    (reg : CAN_scheduledMsgList a) : CAN_scheduledMsgList a :=
  match CAN_addScheduledMessage p.1 p.2 reg with
  | some (_, r) => r
  | none => reg

/- the registry state after a sequence of add calls -/
def addAll {a : Type} :
    List (Nat × CAN_scheduledMsg a) → CAN_scheduledMsgList a → CAN_scheduledMsgList a
  | [], reg => reg
  | p :: rest, reg => addAll rest (applyAdd p reg)

/- Constants from src/Error_Corrutines/Inc/error_handler.h -/
def ERROR_FRAME_DLC : Nat := 8
def ERROR_SPECIFIC_DATA_SIZE : Nat := 5
def HEARTBEAT_ERROR_CODE : Nat := 0xFFFF
def HEARTBEAT_INTERVAL : Nat := 1000
def ERROR_INTERVAL : Nat := 300

/- errorSeverity_e enumerator values -/
def ERROR_SEVERITY_SAFE_STATE : Nat := 0
def ERROR_SEVERITY_ERROR : Nat := 1
def ERROR_SEVERITY_WARNING : Nat := 2
def ERROR_SEVERITY_INFO : Nat := 3

/- The two payload-producer function pointers the error handler installs
(their context pointer is always the handler itself). -/
inductive ErrProducer where
  | heightbeatOK
  | errorP
deriving DecidableEq

/- ERROR_HANDLER_HandleTypeDef.  phcan and scheduler pointers are
externalized: each operation takes and returns the registry it works on.
uint8_t flags isInitialized and isHalted are kept as Nat 0/1 values, the
5-byte activeSpecificData array as a list of bytes of length 5. -/
structure ERROR_HANDLER_HandleTypeDef where
  nodeId : Nat
  errorFrameId : Nat
  activeErrorCode : Nat
  activeSeverity : Nat
  activeSpecificData : List Nat
  activeSpecificDataLen : Nat
  isInitialized : Nat
  isHalted : Nat
deriving DecidableEq

/- registry whose producers are the error handler's ones -/
def ErrRegistry : Type := CAN_scheduledMsgList ErrProducer

/- the heartbeat entry built in ERROR_HANDLER_init lines 57-67 and in
ERROR_HANDLER_clear lines 188-198 (CAN_RTR_DATA = 0, DISABLE = false) -/
def heartbeatMsgFor (frameId : Nat) : CAN_scheduledMsg ErrProducer :=
  { header := { StdId := frameId, ExtId := 0, IDE := CAN_IdType.std, RTR := 0,
                DLC := ERROR_FRAME_DLC, TransmitGlobalTime := false },
    periodMs := HEARTBEAT_INTERVAL, lastTick := 0,
    getData := some ErrProducer.heightbeatOK }

/- the error entry built in ERROR_HANDLER_reportEx lines 136-146 -/
def errorMsgFor (frameId : Nat) : CAN_scheduledMsg ErrProducer :=
  { header := { StdId := frameId, ExtId := 0, IDE := CAN_IdType.std, RTR := 0,
                DLC := ERROR_FRAME_DLC, TransmitGlobalTime := false },
    periodMs := ERROR_INTERVAL, lastTick := 0,
    getData := some ErrProducer.errorP }

/- ERROR_HANDLER_init (error_handler.c lines 38-70): overwrites the named
fields of the caller-supplied handler struct (activeSpecificData is NOT
touched by init) and registers the heartbeat entry.  The nested add's
status is discarded by the C code; its fatal trap cannot fire here only
when the registry is small, so the trap is propagated as none. -/
def ERROR_HANDLER_init (h : ERROR_HANDLER_HandleTypeDef) (nodeIdVal : Nat)
    (reg : ErrRegistry) (now : Nat) :
    Option (ERROR_HANDLER_HandleTypeDef × ErrRegistry) :=
  let nodeIdVal := nodeIdVal % 2 ^ 16
  let h' := { h with
    nodeId := nodeIdVal,
    errorFrameId := nodeIdVal <<< 5,
    isInitialized := 1,
    isHalted := 0,
    activeErrorCode := 0,
    activeSeverity := ERROR_SEVERITY_SAFE_STATE,
    activeSpecificDataLen := 0 }
  match CAN_addScheduledMessage now (heartbeatMsgFor h'.errorFrameId) reg with
  | some (_, reg') => some (h', reg')
  | none => none

/- ERROR_HANDLER_reportEx (error_handler.c lines 113-149).  data models
the const uint8_t pointer: none is NULL, some d a buffer whose first
dataLen bytes are valid.  The memcpy overwrites only the first
activeSpecificDataLen bytes of the 5-byte array, the tail keeps its old
contents; errorCode is a uint16_t parameter. -/
def ERROR_HANDLER_reportEx (h : ERROR_HANDLER_HandleTypeDef) (reg : ErrRegistry)
    (now : Nat) (errorCode : Nat) (severity : Nat)
    (data : Option (List Nat)) (dataLen : Nat) :
    Option (ERROR_HANDLER_HandleTypeDef × ErrRegistry) :=
  if h.isInitialized == 0 then
    some (h, reg)
  else
    let errorCode := errorCode % 2 ^ 16
    let cap := if dataLen > ERROR_SPECIFIC_DATA_SIZE then ERROR_SPECIFIC_DATA_SIZE else dataLen
    let newSpec :=
      match data with
      | some d =>
        if cap > 0 then d.take cap ++ h.activeSpecificData.drop cap
        else List.replicate ERROR_SPECIFIC_DATA_SIZE 0
      | none => List.replicate ERROR_SPECIFIC_DATA_SIZE 0
    let h' := { h with
      activeErrorCode := errorCode,
      activeSeverity := severity,
      activeSpecificDataLen := cap,
      activeSpecificData := newSpec }
    let reg1 := (CAN_removeScheduledMessage h'.errorFrameId reg).2
    match CAN_addScheduledMessage now (errorMsgFor h'.errorFrameId) reg1 with
    | some (_, reg2) => some (h', reg2)
    | none => none

/- ERROR_HANDLER_report (lines 81-84) -/
def ERROR_HANDLER_report (h : ERROR_HANDLER_HandleTypeDef) (reg : ErrRegistry)
    (now : Nat) (errorCode : Nat) (severity : Nat) :
    Option (ERROR_HANDLER_HandleTypeDef × ErrRegistry) :=
  ERROR_HANDLER_reportEx h reg now errorCode severity none 0

/- ERROR_HANDLER_clear (error_handler.c lines 171-202): on a code match
resets code to 0 and severity to INFO, zeroes the 5 data bytes (but not
activeSpecificDataLen), and swaps the scheduled entry back to heartbeat. -/
def ERROR_HANDLER_clear (h : ERROR_HANDLER_HandleTypeDef) (reg : ErrRegistry)
    (now : Nat) (errorCode : Nat) :
    Option (ERROR_HANDLER_HandleTypeDef × ErrRegistry) :=
  if h.isInitialized == 0 then
    some (h, reg)
  else
    let errorCode := errorCode % 2 ^ 16
    if h.activeErrorCode == errorCode then
      let h' := { h with
        activeErrorCode := 0,
        activeSeverity := ERROR_SEVERITY_INFO,
        activeSpecificData := List.replicate ERROR_SPECIFIC_DATA_SIZE 0 }
      let reg1 := (CAN_removeScheduledMessage h'.errorFrameId reg).2
      match CAN_addScheduledMessage now (heartbeatMsgFor h'.errorFrameId) reg1 with
      | some (_, reg2) => some (h', reg2)
      | none => none
    else
      some (h, reg)

/- ERROR_HANDLER_stopEx (lines 158-163) up to the point inside haltNode
where isHalted has been set (line 282); the infinite loop that follows is
modelled separately below. -/
def ERROR_HANDLER_stopEx (h : ERROR_HANDLER_HandleTypeDef) (reg : ErrRegistry)
    (now : Nat) (errorCode : Nat) (severity : Nat)
    (data : Option (List Nat)) (dataLen : Nat) :
    Option (ERROR_HANDLER_HandleTypeDef × ErrRegistry) :=
  match ERROR_HANDLER_reportEx h reg now errorCode severity data dataLen with
  | some (h', reg') => some ({ h' with isHalted := 1 }, reg')
  | none => none

/- ERROR_HANDLER_stop (lines 91-94) -/
def ERROR_HANDLER_stop (h : ERROR_HANDLER_HandleTypeDef) (reg : ErrRegistry)
    (now : Nat) (errorCode : Nat) (severity : Nat) :
    Option (ERROR_HANDLER_HandleTypeDef × ErrRegistry) :=
  ERROR_HANDLER_stopEx h reg now errorCode severity none 0

/- getData_HeightbeatOK (error_handler.c lines 232-250): writes all 8
payload bytes from constants, ignoring the incoming buffer contents. -/
def getData_HeightbeatOK (data : List Nat) : List Nat :=
  let errorCode := HEARTBEAT_ERROR_CODE
  let severity := ERROR_SEVERITY_INFO
  let halted := 0
  let _ := data
  [errorCode &&& 0xFF,
   (errorCode >>> 8) &&& 0xFF,
   ((halted &&& 0x01) <<< 0) ||| ((severity &&& 0x07) <<< 1)]
  ++ List.replicate 5 0

/- getData_Error (error_handler.c lines 256-273): bytes 0-1 the active
code little-endian, byte 2 the flags byte, bytes 3-7 the 5 stored
diagnostic bytes (memcpy of the whole array, whatever its contents). -/
def getData_Error (h : ERROR_HANDLER_HandleTypeDef) (data : List Nat) : List Nat :=
  let errorToSend := h.activeErrorCode
  let _ := data
  [errorToSend &&& 0xFF,
   (errorToSend >>> 8) &&& 0xFF,
   ((h.isHalted &&& 0x01) <<< 0) ||| ((h.activeSeverity &&& 0x07) <<< 1)]
  ++ h.activeSpecificData.take ERROR_SPECIFIC_DATA_SIZE

/- interpretation of the handler's two producer pointers with their
context -/
def runErrProducer (h : ERROR_HANDLER_HandleTypeDef) :
    ErrProducer → List Nat → List Nat
  | ErrProducer.heightbeatOK => getData_HeightbeatOK
  | ErrProducer.errorP => getData_Error h

/- The while (1) condition of haltNode (error_handler.c line 285): the
loop exits only if this constant-true guard ever evaluates to false. -/
def haltLoopGuard (h : ERROR_HANDLER_HandleTypeDef) (reg : ErrRegistry) : Bool :=
  let _ := h
  let _ := reg
  true

/- n iterations of the haltNode loop body (CAN_process on the registry),
with times giving the HAL_GetTick() value of each iteration -/
def haltNodeIter (tx : CAN_TxHeaderTypeDef → List Nat → Bool)
    (times : Nat → Nat) (h : ERROR_HANDLER_HandleTypeDef) (reg : ErrRegistry) :
    Nat → ErrRegistry
  | 0 => reg
  | Nat.succ n =>
    (CAN_process (runErrProducer h) tx (times n) (haltNodeIter tx times h reg n)).1

/- haltNode returns to its caller only if after some number of loop
iterations the while guard is false -/
def haltNodeReturns (tx : CAN_TxHeaderTypeDef → List Nat → Bool)
    (times : Nat → Nat) (h : ERROR_HANDLER_HandleTypeDef) (reg : ErrRegistry) : Prop :=
  ∃ n, haltLoopGuard h (haltNodeIter tx times h reg n) = false

instance {a : Type} (reg : CAN_scheduledMsgList a) : Decidable (registryUnique reg) := by
  unfold registryUnique
  infer_instance

/- the effect of one tick on one entry that was not cut off by an earlier
transmit failure -/
def tickRefresh {a : Type} (now : Nat) (m : CAN_scheduledMsg a) : CAN_scheduledMsg a :=
  if due now m then { m with lastTick := now % UINT32_LIM } else m

/- Concrete fixtures used by witnesses and counterexamples -/

/- a handler struct as a fresh zero-initialized variable before init -/
def hZero : ERROR_HANDLER_HandleTypeDef :=
  { nodeId := 0, errorFrameId := 0, activeErrorCode := 0, activeSeverity := 0,
    activeSpecificData := [0, 0, 0, 0, 0], activeSpecificDataLen := 0,
    isInitialized := 0, isHalted := 0 }

/- a producer-less scheduled message with a short period -/
def msgA : CAN_scheduledMsg ErrProducer :=
  { header := { StdId := 1, ExtId := 0, IDE := CAN_IdType.std, RTR := 0,
                DLC := 2, TransmitGlobalTime := false },
    periodMs := 10, lastTick := 0, getData := none }

/- a producer-less scheduled message with a long period -/
def msgB : CAN_scheduledMsg ErrProducer :=
  { header := { StdId := 2, ExtId := 0, IDE := CAN_IdType.std, RTR := 0,
                DLC := 3, TransmitGlobalTime := false },
    periodMs := 1000, lastTick := 0, getData := none }

/- an extended-ID entry with identifier 5 -/
def entryExt5 : CAN_scheduledMsg ErrProducer :=
  { header := { StdId := 0, ExtId := 5, IDE := CAN_IdType.ext, RTR := 0,
                DLC := 8, TransmitGlobalTime := false },
    periodMs := 100, lastTick := 0, getData := none }

/- a standard-ID message whose identifier is the numerically equal 5 (its
unused ExtId header field also holds 5) -/
def msgStd5 : CAN_scheduledMsg ErrProducer :=
  { header := { StdId := 5, ExtId := 5, IDE := CAN_IdType.std, RTR := 0,
                DLC := 8, TransmitGlobalTime := false },
    periodMs := 100, lastTick := 0, getData := none }

/- Helper lemmas about the duplicate test -/

lemma dupMatch_true_iff {a : Type} (e : CAN_scheduledMsg a) (hdr : CAN_TxHeaderTypeDef) :
    dupMatch e hdr = true ↔
      (e.header.IDE = CAN_IdType.std ∧ e.header.StdId = hdr.StdId) ∨
      (e.header.IDE = CAN_IdType.ext ∧ e.header.ExtId = hdr.ExtId) := by
  simp [dupMatch]

lemma dupMatch_of_sameIdSameSpace {a : Type} (e : CAN_scheduledMsg a)
    (hdr : CAN_TxHeaderTypeDef) (hs : sameIdSameSpace e.header hdr = true) :
    dupMatch e hdr = true := by
  rw [dupMatch_true_iff]
  unfold sameIdSameSpace at hs
  cases hI : e.header.IDE with
  | std => simp [hI] at hs; exact Or.inl ⟨rfl, hs.2⟩
  | ext => simp [hI] at hs; exact Or.inr ⟨rfl, hs.2⟩

lemma sameIdSameSpace_false_of_not_dupMatch {a : Type} (e : CAN_scheduledMsg a)
    (hdr : CAN_TxHeaderTypeDef) (hd : dupMatch e hdr = false) :
    sameIdSameSpace e.header hdr = false := by
  by_contra hne
  have hs : sameIdSameSpace e.header hdr = true := by
    cases hv : sameIdSameSpace e.header hdr
    · exact absurd hv hne
    · rfl
  rw [dupMatch_of_sameIdSameSpace e hdr hs] at hd
  cases hd

/- one successful or duplicate-rejected add preserves registry
uniqueness -/
lemma add_preserves_registryUnique {a : Type} (now : Nat)
    (msg : CAN_scheduledMsg a) (reg reg' : CAN_scheduledMsgList a)
    (st : HAL_Status) (hu : registryUnique reg)
    (hadd : CAN_addScheduledMessage now msg reg = some (st, reg')) :
    registryUnique reg' := by
  unfold CAN_addScheduledMessage at hadd
  split at hadd
  · cases hadd
  · split at hadd
    · cases hadd
    · dsimp only at hadd
      split at hadd
      · cases hadd
        exact hu
      · rename_i hfull hper hany
        cases hadd
        unfold registryUnique at hu ⊢
        rw [List.pairwise_append]
        refine ⟨hu, List.pairwise_singleton _ _, ?_⟩
        intro x hx y hy
        simp only [List.mem_singleton] at hy
        subst hy
        have hnd : dupMatch x msg.header = false := by
          cases hv : dupMatch x msg.header
          · rfl
          · exact absurd (List.any_eq_true.mpr ⟨x, hx, hv⟩) hany
        exact sameIdSameSpace_false_of_not_dupMatch x msg.header hnd

/- any sequence of adds preserves registry uniqueness -/
lemma addAll_preserves_registryUnique {a : Type} :
    ∀ (ops : List (Nat × CAN_scheduledMsg a)) (reg : CAN_scheduledMsgList a),
      registryUnique reg → registryUnique (addAll ops reg)
  | [], reg, hu => hu
  | p :: rest, reg, hu => by
    apply addAll_preserves_registryUnique rest
    unfold applyAdd
    cases hadd : CAN_addScheduledMessage p.1 p.2 reg with
    | none => exact hu
    | some q => exact add_preserves_registryUnique p.1 p.2 reg q.2 q.1 hu (by rw [hadd])

/-- C1: starting from any well-formed registry, no sequence of
addScheduledMessage calls ever yields two entries with the same identifier
in the same ID space; and an add whose identifier duplicates an existing
entry's identifier in the same ID space (with the fatal guards not
firing) returns the duplicate result HAL_ERROR and leaves the registry,
all entries and the size, unchanged. -/
theorem C1_adds_keep_ids_unique_and_duplicate_add_rejected {a : Type}
    (ops : List (Nat × CAN_scheduledMsg a)) (reg : CAN_scheduledMsgList a)
    (hu : registryUnique reg) :
    registryUnique (addAll ops reg) ∧
    ∀ (now : Nat) (msg : CAN_scheduledMsg a),
      reg.list.length < CAN_MAX_MSG - 1 → msg.periodMs ≠ 0 →
      (∃ e ∈ reg.list, sameIdSameSpace e.header msg.header = true) →
      CAN_addScheduledMessage now msg reg = some (HAL_Status.HAL_ERROR, reg) := by
  constructor
  · exact addAll_preserves_registryUnique ops reg hu
  · intro now msg hlen hper hdup
    obtain ⟨e, he, hse⟩ := hdup
    have hany : reg.list.any (fun x => dupMatch x msg.header) = true :=
      List.any_eq_true.mpr ⟨e, he, dupMatch_of_sameIdSameSpace e msg.header hse⟩
    unfold CAN_addScheduledMessage
    rw [if_neg (by omega), if_neg (by simp [hper]), if_pos hany]

/-- C1 witness: a registry holding the heartbeat entry for frame 64 is
well formed, stays well formed under an add of the error entry with the
same identifier, and that duplicate add returns HAL_ERROR leaving the
registry unchanged. -/
theorem C1_witness :
    registryUnique (⟨[heartbeatMsgFor 64]⟩ : CAN_scheduledMsgList ErrProducer) ∧
    (registryUnique (addAll [(5, errorMsgFor 64)]
        (⟨[heartbeatMsgFor 64]⟩ : CAN_scheduledMsgList ErrProducer)) ∧
     ∀ (now : Nat) (msg : CAN_scheduledMsg ErrProducer),
       (⟨[heartbeatMsgFor 64]⟩ : CAN_scheduledMsgList ErrProducer).list.length <
           CAN_MAX_MSG - 1 →
       msg.periodMs ≠ 0 →
       (∃ e ∈ (⟨[heartbeatMsgFor 64]⟩ : CAN_scheduledMsgList ErrProducer).list,
           sameIdSameSpace e.header msg.header = true) →
       CAN_addScheduledMessage now msg ⟨[heartbeatMsgFor 64]⟩ =
         some (HAL_Status.HAL_ERROR, ⟨[heartbeatMsgFor 64]⟩)) :=
  ⟨by decide,
   C1_adds_keep_ids_unique_and_duplicate_add_rejected
     [(5, errorMsgFor 64)] ⟨[heartbeatMsgFor 64]⟩ (by decide)⟩

/-- C7 counterexample: a standard-ID message with identifier 5 is added to
a registry whose only entry is an extended-ID entry with the numerically
equal identifier 5, and the add is rejected as a duplicate (HAL_ERROR) —
refuting the claim that a standard-ID message is never rejected because of
an extended-ID entry with a numerically equal identifier. -/
theorem C7_counterexample :
    CAN_addScheduledMessage 0 msgStd5 ⟨[entryExt5]⟩ =
      some (HAL_Status.HAL_ERROR, ⟨[entryExt5]⟩) := by
  decide

/-- C7 amended: the duplicate check never consults the new message's own
ID-space flag; with the fatal guards not firing, an add is rejected as a
duplicate exactly when some existing standard-ID entry's StdId equals the
new header's StdId field, or some existing extended-ID entry's ExtId
equals the new header's ExtId field. -/
theorem C7_duplicate_check_branches_on_existing_entry_space {a : Type}
    (now : Nat) (msg : CAN_scheduledMsg a) (reg : CAN_scheduledMsgList a)
    (hlen : reg.list.length < CAN_MAX_MSG - 1) (hper : msg.periodMs ≠ 0) :
    (CAN_addScheduledMessage now msg reg = some (HAL_Status.HAL_ERROR, reg)) ↔
      ∃ e ∈ reg.list,
        (e.header.IDE = CAN_IdType.std ∧ e.header.StdId = msg.header.StdId) ∨
        (e.header.IDE = CAN_IdType.ext ∧ e.header.ExtId = msg.header.ExtId) := by
  have hiff : (reg.list.any fun e => dupMatch e msg.header) = true ↔
      ∃ e ∈ reg.list,
        ((e.header.IDE = CAN_IdType.std ∧ e.header.StdId = msg.header.StdId) ∨
         (e.header.IDE = CAN_IdType.ext ∧ e.header.ExtId = msg.header.ExtId)) := by
    rw [List.any_eq_true]
    exact exists_congr fun e => and_congr_right fun _ => dupMatch_true_iff e msg.header
  unfold CAN_addScheduledMessage
  rw [if_neg (by omega), if_neg (by simp [hper])]
  dsimp only
  rw [← hiff]
  cases hany : reg.list.any fun e => dupMatch e msg.header with
  | true => simp [hany]
  | false => simp [hany]

/-- C7 witness: the amended characterization applied to the concrete
extended-entry registry and standard-ID message. -/
theorem C7_witness :
    (⟨[entryExt5]⟩ : CAN_scheduledMsgList ErrProducer).list.length < CAN_MAX_MSG - 1 ∧
    msgStd5.periodMs ≠ 0 ∧
    ((CAN_addScheduledMessage 0 msgStd5 ⟨[entryExt5]⟩ =
        some (HAL_Status.HAL_ERROR, ⟨[entryExt5]⟩)) ↔
      ∃ e ∈ (⟨[entryExt5]⟩ : CAN_scheduledMsgList ErrProducer).list,
        (e.header.IDE = CAN_IdType.std ∧ e.header.StdId = msgStd5.header.StdId) ∨
        (e.header.IDE = CAN_IdType.ext ∧ e.header.ExtId = msgStd5.header.ExtId)) :=
  ⟨by decide, by decide,
   C7_duplicate_check_branches_on_existing_entry_space 0 msgStd5 ⟨[entryExt5]⟩
     (by decide) (by decide)⟩

/- When every due entry's transmit succeeds, the tick refreshes exactly
the due entries and transmits them in order. -/
lemma handleScheduledList_ok {a : Type} (runProd : a → List Nat → List Nat)
    (tx : CAN_TxHeaderTypeDef → List Nat → Bool) (now : Nat) :
    ∀ l : List (CAN_scheduledMsg a),
      (∀ m ∈ l, due now m = true → tx m.header (producePayload runProd m) = true) →
      handleScheduledList runProd tx now l =
        (l.map (tickRefresh now),
         (l.filter (due now)).map (fun m => (m.header, producePayload runProd m)))
  | [], _ => by simp [handleScheduledList]
  | m :: rest, hok => by
    have hrest := handleScheduledList_ok runProd tx now rest
      (fun x hx hdx => hok x (List.mem_cons_of_mem m hx) hdx)
    cases hd : due now m with
    | false =>
      simp [handleScheduledList, hd, hrest, tickRefresh, List.filter_cons, hd]
    | true =>
      have htx := hok m (List.mem_cons_self m rest) hd
      simp [handleScheduledList, hd, htx, hrest, tickRefresh, List.filter_cons]

/-- C2: with every attempted transmit accepted, tick transmits exactly the
entries whose strict due test now > lastSentTick + periodMs (in uint32
arithmetic) holds, in scan order; an entry with now equal to
lastSentTick + periodMs is not due; an entry with now one past that bound
is due; and when no entry is due the tick produces zero transmissions
whatever the transmit function does. -/
theorem C2_tick_transmits_exactly_strictly_due_entries {a : Type}
    (runProd : a → List Nat → List Nat)
    (tx : CAN_TxHeaderTypeDef → List Nat → Bool) (now : Nat)
    (reg : CAN_scheduledMsgList a)
    (hok : ∀ m ∈ reg.list, due now m = true →
      tx m.header (producePayload runProd m) = true) :
    (CAN_handleScheduled runProd tx now reg).2 =
      (reg.list.filter (due now)).map (fun m => (m.header, producePayload runProd m))
    ∧ (∀ m : CAN_scheduledMsg a, due (m.lastTick + m.periodMs) m = false)
    ∧ (∀ m : CAN_scheduledMsg a, m.lastTick + m.periodMs + 1 < UINT32_LIM →
        due (m.lastTick + m.periodMs + 1) m = true)
    ∧ (∀ tx2 : CAN_TxHeaderTypeDef → List Nat → Bool,
        (∀ m ∈ reg.list, due now m = false) →
        (CAN_handleScheduled runProd tx2 now reg).2 = []) := by
  refine ⟨?_, ?_, ?_, ?_⟩
  · unfold CAN_handleScheduled
    rw [handleScheduledList_ok runProd tx now reg.list hok]
  · intro m
    simp [due]
  · intro m hlt
    have h1 : (m.lastTick + m.periodMs + 1) % UINT32_LIM = m.lastTick + m.periodMs + 1 :=
      Nat.mod_eq_of_lt hlt
    have h2 : (m.lastTick + m.periodMs) % UINT32_LIM = m.lastTick + m.periodMs :=
      Nat.mod_eq_of_lt (by omega)
    simp [due, h1, h2]
  · intro tx2 hnone
    unfold CAN_handleScheduled
    rw [handleScheduledList_ok runProd tx2 now reg.list
      (fun m hm hdm => absurd hdm (by simp [hnone m hm]))]
    have : reg.list.filter (due now) = [] :=
      List.filter_eq_nil_iff.mpr (fun m hm => by simp [hnone m hm])
    simp [this]

/-- C2 witness: a registry with one entry due at time 11 and one not due,
under an always-accepting transmit function. -/
theorem C2_witness :
    (∀ m ∈ (⟨[msgA, msgB]⟩ : CAN_scheduledMsgList ErrProducer).list,
        due 11 m = true →
        (fun _ _ => true : CAN_TxHeaderTypeDef → List Nat → Bool) m.header
          (producePayload (runErrProducer hZero) m) = true)
    ∧ ((CAN_handleScheduled (runErrProducer hZero) (fun _ _ => true) 11
          ⟨[msgA, msgB]⟩).2 =
        ((⟨[msgA, msgB]⟩ : CAN_scheduledMsgList ErrProducer).list.filter (due 11)).map
          (fun m => (m.header, producePayload (runErrProducer hZero) m))
    ∧ (∀ m : CAN_scheduledMsg ErrProducer, due (m.lastTick + m.periodMs) m = false)
    ∧ (∀ m : CAN_scheduledMsg ErrProducer, m.lastTick + m.periodMs + 1 < UINT32_LIM →
        due (m.lastTick + m.periodMs + 1) m = true)
    ∧ (∀ tx2 : CAN_TxHeaderTypeDef → List Nat → Bool,
        (∀ m ∈ (⟨[msgA, msgB]⟩ : CAN_scheduledMsgList ErrProducer).list,
          due 11 m = false) →
        (CAN_handleScheduled (runErrProducer hZero) tx2 11 ⟨[msgA, msgB]⟩).2 = [])) :=
  ⟨by decide,
   C2_tick_transmits_exactly_strictly_due_entries (runErrProducer hZero)
     (fun _ _ => true) 11 ⟨[msgA, msgB]⟩ (by decide)⟩

/- A failed transmit on a due entry stops the scan: the already-scanned
prefix is refreshed and transmitted as usual, the failing entry and
everything after it are returned untouched. -/
lemma handleScheduledList_abort {a : Type} (runProd : a → List Nat → List Nat)
    (tx : CAN_TxHeaderTypeDef → List Nat → Bool) (now : Nat)
    (f : CAN_scheduledMsg a) (post : List (CAN_scheduledMsg a))
    (hdf : due now f = true)
    (htf : tx f.header (producePayload runProd f) = false) :
    ∀ pre : List (CAN_scheduledMsg a),
      (∀ m ∈ pre, due now m = true → tx m.header (producePayload runProd m) = true) →
      handleScheduledList runProd tx now (pre ++ f :: post) =
        (pre.map (tickRefresh now) ++ f :: post,
         (pre.filter (due now)).map (fun m => (m.header, producePayload runProd m)))
  | [], _ => by simp [handleScheduledList, hdf, htf]
  | m :: pre, hok => by
    have hpre := handleScheduledList_abort runProd tx now f post hdf htf pre
      (fun x hx hdx => hok x (List.mem_cons_of_mem m hx) hdx)
    cases hd : due now m with
    | false =>
      simp [handleScheduledList, hd, hpre, tickRefresh, List.filter_cons]
    | true =>
      have htx := hok m (List.mem_cons_self m pre) hd
      simp [handleScheduledList, hd, htx, hpre, tickRefresh, List.filter_cons]

/-- C6: if during a tick the transmit of the due entry f fails (with every
earlier due entry accepted), the scan aborts: the transmissions are
exactly the due entries before f, the registry keeps f and every later
entry unchanged (in particular f's lastSentTick), and every entry from f
on that was due remains in the registry and still due at the same clock
value. -/
theorem C6_transmit_failure_aborts_tick_scan {a : Type}
    (runProd : a → List Nat → List Nat)
    (tx : CAN_TxHeaderTypeDef → List Nat → Bool) (now : Nat)
    (pre post : List (CAN_scheduledMsg a)) (f : CAN_scheduledMsg a)
    (hpre : ∀ m ∈ pre, due now m = true →
      tx m.header (producePayload runProd m) = true)
    (hdf : due now f = true)
    (htf : tx f.header (producePayload runProd f) = false) :
    (CAN_handleScheduled runProd tx now ⟨pre ++ f :: post⟩).2 =
      (pre.filter (due now)).map (fun m => (m.header, producePayload runProd m))
    ∧ (CAN_handleScheduled runProd tx now ⟨pre ++ f :: post⟩).1.list =
        pre.map (tickRefresh now) ++ f :: post
    ∧ (∀ m ∈ f :: post, due now m = true →
        m ∈ (CAN_handleScheduled runProd tx now ⟨pre ++ f :: post⟩).1.list ∧
        due now m = true) := by
  have habort := handleScheduledList_abort runProd tx now f post hdf htf pre hpre
  refine ⟨?_, ?_, ?_⟩
  · unfold CAN_handleScheduled
    rw [habort]
  · unfold CAN_handleScheduled
    rw [habort]
  · intro m hm hdm
    refine ⟨?_, hdm⟩
    unfold CAN_handleScheduled
    rw [habort]
    exact List.mem_append_right _ hm

/-- C6 witness: a registry with a due entry before a due-but-failing entry
and an entry after it, under a transmit function that rejects identifier
2. -/
theorem C6_witness :
    (∀ m ∈ [msgA], due 2000 m = true →
        (fun hdr _ => hdr.StdId == 1 : CAN_TxHeaderTypeDef → List Nat → Bool)
          m.header (producePayload (runErrProducer hZero) m) = true)
    ∧ due 2000 msgB = true
    ∧ (fun hdr _ => hdr.StdId == 1 : CAN_TxHeaderTypeDef → List Nat → Bool)
        msgB.header (producePayload (runErrProducer hZero) msgB) = false
    ∧ ((CAN_handleScheduled (runErrProducer hZero) (fun hdr _ => hdr.StdId == 1)
          2000 ⟨[msgA] ++ msgB :: [entryExt5]⟩).2 =
        ([msgA].filter (due 2000)).map
          (fun m => (m.header, producePayload (runErrProducer hZero) m))
    ∧ (CAN_handleScheduled (runErrProducer hZero) (fun hdr _ => hdr.StdId == 1)
          2000 ⟨[msgA] ++ msgB :: [entryExt5]⟩).1.list =
        [msgA].map (tickRefresh 2000) ++ msgB :: [entryExt5]
    ∧ (∀ m ∈ msgB :: [entryExt5], due 2000 m = true →
        m ∈ (CAN_handleScheduled (runErrProducer hZero) (fun hdr _ => hdr.StdId == 1)
              2000 ⟨[msgA] ++ msgB :: [entryExt5]⟩).1.list ∧
        due 2000 m = true)) :=
  ⟨by decide, by decide, by decide,
   C6_transmit_failure_aborts_tick_scan (runErrProducer hZero)
     (fun hdr _ => hdr.StdId == 1) 2000 [msgA] [entryExt5] msgB
     (by decide) (by decide) (by decide)⟩

/-- C10: an entry whose payload-producer pointer is null is handled
without invoking any producer: its payload is the zero-initialized
DLC-byte buffer unmodified, and when it is due (with transmits accepted)
the tick transmits its header with that all-zero payload. -/
theorem C10_null_producer_transmits_zero_filled_buffer {a : Type}
    (runProd : a → List Nat → List Nat)
    (tx : CAN_TxHeaderTypeDef → List Nat → Bool) (now : Nat)
    (reg : CAN_scheduledMsgList a) (msg : CAN_scheduledMsg a)
    (hok : ∀ hdr pl, tx hdr pl = true)
    (hmem : msg ∈ reg.list) (hnone : msg.getData = none)
    (hdue : due now msg = true) :
    producePayload runProd msg = List.replicate msg.header.DLC 0
    ∧ (msg.header, List.replicate msg.header.DLC 0) ∈
        (CAN_handleScheduled runProd tx now reg).2 := by
  have hp : producePayload runProd msg = List.replicate msg.header.DLC 0 := by
    unfold producePayload
    rw [hnone]
  refine ⟨hp, ?_⟩
  unfold CAN_handleScheduled
  rw [handleScheduledList_ok runProd tx now reg.list (fun m _ _ => hok _ _)]
  refine List.mem_map.mpr ⟨msg, List.mem_filter.mpr ⟨hmem, hdue⟩, ?_⟩
  rw [hp]

/-- C10 witness: the producer-less entry msgA, due at time 11, is
transmitted with a two-byte all-zero payload. -/
theorem C10_witness :
    (∀ hdr pl, (fun _ _ => true : CAN_TxHeaderTypeDef → List Nat → Bool) hdr pl = true)
    ∧ msgA ∈ (⟨[msgA, msgB]⟩ : CAN_scheduledMsgList ErrProducer).list
    ∧ msgA.getData = none
    ∧ due 11 msgA = true
    ∧ (producePayload (runErrProducer hZero) msgA =
        List.replicate msgA.header.DLC 0
    ∧ (msgA.header, List.replicate msgA.header.DLC 0) ∈
        (CAN_handleScheduled (runErrProducer hZero) (fun _ _ => true) 11
          ⟨[msgA, msgB]⟩).2) :=
  ⟨fun _ _ => rfl, by decide, by decide, by decide,
   C10_null_producer_transmits_zero_filled_buffer (runErrProducer hZero)
     (fun _ _ => true) 11 ⟨[msgA, msgB]⟩ msgA (fun _ _ => rfl)
     (by decide) (by decide) (by decide)⟩

/-- C3 counterexample: clear(0x0200) on an initialized, non-halted
reporter whose active code is 0x0200 leaves the active code at 0, not at
the heartbeat sentinel 0xFFFF claimed. -/
theorem C3_counterexample :
    ((ERROR_HANDLER_clear
        { hZero with
          nodeId := 2, errorFrameId := 64, activeErrorCode := 0x0200,
          activeSeverity := ERROR_SEVERITY_ERROR, isInitialized := 1 }
        ⟨[errorMsgFor 64]⟩ 5000 0x0200).map (fun p => p.1.activeErrorCode)) ≠
      some HEARTBEAT_ERROR_CODE := by
  decide

/-- C3 amended: clear(code) on an initialized, non-halted reporter whose
active code equals code removes the (sole) matching entry at frameId,
adds the heartbeat entry at frameId with period HEARTBEAT_INTERVAL, and
resets the active code to 0 (not to the heartbeat sentinel 0xFFFF),
severity to INFO and the stored diagnostic bytes to zero. -/
theorem C3_clear_restores_heartbeat_and_zeroes_code
    (h : ERROR_HANDLER_HandleTypeDef) (e : CAN_scheduledMsg ErrProducer)
    (now code : Nat)
    (hi : h.isInitialized ≠ 0) (_hhalt : h.isHalted = 0)
    (hc16 : code < 2 ^ 16) (hcode : h.activeErrorCode = code)
    (hmatch : remMatch e h.errorFrameId = true) :
    ERROR_HANDLER_clear h ⟨[e]⟩ now code =
      some ({ h with
              activeErrorCode := 0,
              activeSeverity := ERROR_SEVERITY_INFO,
              activeSpecificData := List.replicate ERROR_SPECIFIC_DATA_SIZE 0 },
            ⟨[{ heartbeatMsgFor h.errorFrameId with lastTick := now % UINT32_LIM }]⟩) := by
  unfold ERROR_HANDLER_clear
  rw [if_neg (by simp [hi])]
  dsimp only
  rw [Nat.mod_eq_of_lt hc16, if_pos (by simp [hcode])]
  simp [CAN_removeScheduledMessage, removeScan, hmatch, CAN_addScheduledMessage,
    heartbeatMsgFor, HEARTBEAT_INTERVAL, CAN_MAX_MSG]

/-- C3 witness: the amended statement at the concrete reporter with active
code 0x0200 and the error entry for frame 64. -/
theorem C3_witness :
    ({ hZero with
       nodeId := 2, errorFrameId := 64, activeErrorCode := 0x0200,
       activeSeverity := ERROR_SEVERITY_ERROR, isInitialized := 1 } :
      ERROR_HANDLER_HandleTypeDef).isInitialized ≠ 0
    ∧ ERROR_HANDLER_clear
        { hZero with
          nodeId := 2, errorFrameId := 64, activeErrorCode := 0x0200,
          activeSeverity := ERROR_SEVERITY_ERROR, isInitialized := 1 }
        ⟨[errorMsgFor 64]⟩ 5000 0x0200 =
      some ({ { hZero with
                nodeId := 2, errorFrameId := 64, activeErrorCode := 0x0200,
                activeSeverity := ERROR_SEVERITY_ERROR, isInitialized := 1 } with
              activeErrorCode := 0,
              activeSeverity := ERROR_SEVERITY_INFO,
              activeSpecificData := List.replicate ERROR_SPECIFIC_DATA_SIZE 0 },
            ⟨[{ heartbeatMsgFor 64 with lastTick := 5000 % UINT32_LIM }]⟩) :=
  ⟨by decide,
   C3_clear_restores_heartbeat_and_zeroes_code
     { hZero with
       nodeId := 2, errorFrameId := 64, activeErrorCode := 0x0200,
       activeSeverity := ERROR_SEVERITY_ERROR, isInitialized := 1 }
     (errorMsgFor 64) 5000 0x0200
     (by decide) (by decide) (by decide) (by decide) (by decide)⟩

/-- C4 counterexample: on an initialized reporter whose halted flag is set
(active code 0), a report call is not a no-op — it overwrites the active
code with 7. -/
theorem C4_counterexample :
    ((ERROR_HANDLER_reportEx
        { hZero with nodeId := 2, errorFrameId := 64, isInitialized := 1, isHalted := 1 }
        ⟨[]⟩ 0 7 1 none 0).map (fun p => p.1.activeErrorCode)) = some 7
    ∧ ({ hZero with
         nodeId := 2, errorFrameId := 64, isInitialized := 1, isHalted := 1 } :
        ERROR_HANDLER_HandleTypeDef).activeErrorCode = 0 := by
  constructor
  · decide
  · decide

/-- C4 amended: once the halted flag is set it is never cleared by report,
clear or stop calls (whatever their arguments); but such calls are not
no-ops — they mutate the reporter and registry exactly as when not
halted. -/
theorem C4_halted_flag_never_cleared
    (h : ERROR_HANDLER_HandleTypeDef) (reg : ErrRegistry)
    (now code sev dataLen : Nat) (data : Option (List Nat))
    (hh : h.isHalted = 1) :
    ((ERROR_HANDLER_reportEx h reg now code sev data dataLen).all
        (fun p => p.1.isHalted == 1)) = true
    ∧ ((ERROR_HANDLER_clear h reg now code).all
        (fun p => p.1.isHalted == 1)) = true
    ∧ ((ERROR_HANDLER_stopEx h reg now code sev data dataLen).all
        (fun p => p.1.isHalted == 1)) = true := by
  refine ⟨?_, ?_, ?_⟩
  · unfold ERROR_HANDLER_reportEx
    split
    · simp [Option.all, hh]
    · dsimp only
      split
      · simp [Option.all, hh]
      · simp [Option.all]
  · unfold ERROR_HANDLER_clear
    split
    · simp [Option.all, hh]
    · dsimp only
      split
      · split
        · simp [Option.all, hh]
        · simp [Option.all]
      · simp [Option.all, hh]
  · unfold ERROR_HANDLER_stopEx
    split
    · simp [Option.all]
    · simp [Option.all]

/-- C4 witness: the amended statement at a concrete halted reporter. -/
theorem C4_witness :
    ({ hZero with isInitialized := 1, isHalted := 1 } :
      ERROR_HANDLER_HandleTypeDef).isHalted = 1
    ∧ (((ERROR_HANDLER_reportEx { hZero with isInitialized := 1, isHalted := 1 }
          ⟨[]⟩ 0 7 1 none 0).all (fun p => p.1.isHalted == 1)) = true
    ∧ ((ERROR_HANDLER_clear { hZero with isInitialized := 1, isHalted := 1 }
          ⟨[]⟩ 0 7).all (fun p => p.1.isHalted == 1)) = true
    ∧ ((ERROR_HANDLER_stopEx { hZero with isInitialized := 1, isHalted := 1 }
          ⟨[]⟩ 0 7 1 none 0).all (fun p => p.1.isHalted == 1)) = true) :=
  ⟨rfl,
   C4_halted_flag_never_cleared { hZero with isInitialized := 1, isHalted := 1 }
     ⟨[]⟩ 0 7 1 0 none rfl⟩

/-- C5 counterexample: the halt loop entered by stop never returns — from
a concrete halted reporter with an empty registry, the while guard is
still true after every number of iterations. -/
theorem C5_counterexample :
    ¬ haltNodeReturns (fun _ _ => true) (fun n => n)
        { hZero with isInitialized := 1, isHalted := 1 } ⟨[]⟩ := by
  intro hret
  rcases hret with ⟨n, hn⟩
  simp [haltLoopGuard] at hn

/-- C5 amended: report and clear return to their caller (they are total
state transformers), and stop performs the report and sets the halted
flag, but then never returns: the haltNode while loop's guard never
becomes false, for any transmit behaviour and any clock sequence. -/
theorem C5_stop_sets_halted_then_loops_forever
    (tx : CAN_TxHeaderTypeDef → List Nat → Bool) (times : Nat → Nat)
    (h : ERROR_HANDLER_HandleTypeDef) (reg : ErrRegistry)
    (now code sev dataLen : Nat) (data : Option (List Nat)) :
    ERROR_HANDLER_stopEx h reg now code sev data dataLen =
      (ERROR_HANDLER_reportEx h reg now code sev data dataLen).map
        (fun p => ({ p.1 with isHalted := 1 }, p.2))
    ∧ ¬ haltNodeReturns tx times h reg := by
  constructor
  · unfold ERROR_HANDLER_stopEx
    cases ERROR_HANDLER_reportEx h reg now code sev data dataLen with
    | none => rfl
    | some p =>
      obtain ⟨p1, p2⟩ := p
      rfl
  · intro hret
    rcases hret with ⟨n, hn⟩
    simp [haltLoopGuard] at hn

/-- C8 counterexample: after a report storing 5 diagnostic bytes
1 2 3 4 5, a report supplying the single byte 9 yields transmitted
payload bytes 3-7 equal to 9 2 3 4 5 — the stale tail of the previous
report, not the claimed zero padding. -/
theorem C8_counterexample :
    (((ERROR_HANDLER_reportEx
          { hZero with nodeId := 2, errorFrameId := 64, isInitialized := 1 }
          ⟨[]⟩ 0 1 1 (some [1, 2, 3, 4, 5]) 5).bind
        (fun p => ERROR_HANDLER_reportEx p.1 p.2 10 2 1 (some [9]) 1)).map
        (fun p => (getData_Error p.1 (List.replicate 8 0)).drop 3)) ≠
      some [9, 0, 0, 0, 0] := by
  decide

/-- C8 amended: a report with non-null data of positive length stores
exactly min(L, 5) as the diagnostic length and overwrites only the first
min(L, 5) bytes of the 5-byte diagnostic buffer, keeping the previous
tail bytes; the transmitted payload bytes 3-7 are that whole 5-byte
buffer (so they are the supplied bytes followed by zeros only when the
kept tail happens to be zero). -/
theorem C8_data_truncated_to_five_with_stale_tail
    (h : ERROR_HANDLER_HandleTypeDef) (reg : ErrRegistry)
    (now code sev dataLen : Nat) (d buf : List Nat)
    (hi : h.isInitialized ≠ 0) (hlen5 : h.activeSpecificData.length = 5)
    (hd : min dataLen 5 ≤ d.length) (hpos : 0 < dataLen) :
    ∀ h' reg',
      ERROR_HANDLER_reportEx h reg now code sev (some d) dataLen = some (h', reg') →
      h'.activeSpecificDataLen = min dataLen 5
      ∧ h'.activeSpecificData =
          d.take (min dataLen 5) ++ h.activeSpecificData.drop (min dataLen 5)
      ∧ (getData_Error h' buf).drop 3 =
          d.take (min dataLen 5) ++ h.activeSpecificData.drop (min dataLen 5) := by
  intro h' reg' hrep
  have hcap : (if dataLen > ERROR_SPECIFIC_DATA_SIZE then ERROR_SPECIFIC_DATA_SIZE
      else dataLen) = min dataLen 5 := by
    unfold ERROR_SPECIFIC_DATA_SIZE
    split <;> omega
  unfold ERROR_HANDLER_reportEx at hrep
  rw [if_neg (by simp [hi])] at hrep
  dsimp only at hrep
  rw [hcap] at hrep
  rw [if_pos (by omega : 0 < min dataLen 5)] at hrep
  split at hrep
  · rename_i reg2 heq
    rw [Option.some.injEq, Prod.mk.injEq] at hrep
    obtain ⟨hh, _⟩ := hrep
    subst hh
    refine ⟨rfl, rfl, ?_⟩
    have hlen : (d.take (min dataLen 5) ++
        h.activeSpecificData.drop (min dataLen 5)).length = 5 := by
      simp only [List.length_append, List.length_take, List.length_drop, hlen5]
      omega
    simp only [getData_Error, ERROR_SPECIFIC_DATA_SIZE]
    rw [List.take_of_length_le (by omega)]
    simp
  · cases hrep

/-- C8 witness: the amended statement applied to a reporter whose stored
diagnostic bytes are 1 2 3 4 5 and a report supplying the single byte
9. -/
theorem C8_witness :
    ({ hZero with
       nodeId := 2, errorFrameId := 64, isInitialized := 1,
       activeSpecificData := [1, 2, 3, 4, 5] } :
      ERROR_HANDLER_HandleTypeDef).isInitialized ≠ 0
    ∧ ({ hZero with
         nodeId := 2, errorFrameId := 64, isInitialized := 1,
         activeSpecificData := [1, 2, 3, 4, 5] } :
        ERROR_HANDLER_HandleTypeDef).activeSpecificData.length = 5
    ∧ min 1 5 ≤ ([9] : List Nat).length
    ∧ 0 < 1
    ∧ (∀ h' reg',
        ERROR_HANDLER_reportEx
          { hZero with
            nodeId := 2, errorFrameId := 64, isInitialized := 1,
            activeSpecificData := [1, 2, 3, 4, 5] }
          ⟨[]⟩ 10 2 1 (some [9]) 1 = some (h', reg') →
        h'.activeSpecificDataLen = min 1 5
        ∧ h'.activeSpecificData =
            ([9] : List Nat).take (min 1 5) ++
              ({ hZero with
                 nodeId := 2, errorFrameId := 64, isInitialized := 1,
                 activeSpecificData := [1, 2, 3, 4, 5] } :
                ERROR_HANDLER_HandleTypeDef).activeSpecificData.drop (min 1 5)
        ∧ (getData_Error h' (List.replicate 8 0)).drop 3 =
            ([9] : List Nat).take (min 1 5) ++
              ({ hZero with
                 nodeId := 2, errorFrameId := 64, isInitialized := 1,
                 activeSpecificData := [1, 2, 3, 4, 5] } :
                ERROR_HANDLER_HandleTypeDef).activeSpecificData.drop (min 1 5)) :=
  ⟨by decide, by decide, by decide, by decide,
   C8_data_truncated_to_five_with_stale_tail
     { hZero with
       nodeId := 2, errorFrameId := 64, isInitialized := 1,
       activeSpecificData := [1, 2, 3, 4, 5] }
     ⟨[]⟩ 10 2 1 1 [9] (List.replicate 8 0)
     (by decide) (by decide) (by decide) (by decide)⟩

/-- C9 counterexample: after init with nodeId 2 at time 0 on an empty
registry, the first tick with now = 1000 produces no transmission at all
(the strict due test 1000 > 0 + 1000 fails), refuting the claim that this
tick transmits the heartbeat payload. -/
theorem C9_counterexample :
    ((ERROR_HANDLER_init hZero 2 ⟨[]⟩ 0).map (fun p =>
        (CAN_handleScheduled (runErrProducer p.1) (fun _ _ => true) 1000 p.2).2)) =
      some [] := by
  decide

/-- C9 amended: init with nodeId 2 yields frameId 64; the tick with
now = 1000 transmits nothing; the tick with now = 1001 transmits the
8-byte heartbeat payload FF FF 06 00 00 00 00 00 (flags byte 0x06 =
severity INFO shifted into bits 1-3 with the halted bit clear, not the
0x08 byte written in the claim's payload). -/
theorem C9_first_heartbeat_fires_at_1001_with_flags_06 :
    ((ERROR_HANDLER_init hZero 2 ⟨[]⟩ 0).map (fun p => p.1.errorFrameId)) = some 64
    ∧ ((ERROR_HANDLER_init hZero 2 ⟨[]⟩ 0).map (fun p =>
        (CAN_handleScheduled (runErrProducer p.1) (fun _ _ => true) 1000 p.2).2)) =
      some []
    ∧ ((ERROR_HANDLER_init hZero 2 ⟨[]⟩ 0).map (fun p =>
        (CAN_handleScheduled (runErrProducer p.1) (fun _ _ => true) 1001 p.2).2)) =
      some [({ StdId := 64, ExtId := 0, IDE := CAN_IdType.std, RTR := 0,
               DLC := 8, TransmitGlobalTime := false },
             [0xFF, 0xFF, 0x06, 0, 0, 0, 0, 0])] := by
  refine ⟨by decide, by decide, by decide⟩
